import Mathlib

/-!
Shallow embedding of the decent-system smart contracts
(PatientRegistry.sol, DoctorRegistry.sol, RecordRegistry.sol,
AccessControl.sol) and proofs about them.

Solidity `address` is modelled as `Nat` (0 is the zero address),
`uint256` as `Nat`, `string` as `String` (`bytes(s).length` becomes
`String.length`), `bytes32` as `Nat`, `block.timestamp` as an explicit
`now : Nat` argument, mappings as total functions returning the
zero-initialised struct by default, and `require(c, msg)` as an
`Except String` failure carrying the revert string.  `1 days` is
86400 seconds.  Cross-contract reads (`recordRegistry.getRecord`,
`doctorRegistry.isVerifiedDoctor`, `patientRegistry.isPatient`) are
modelled by passing the referenced contract's state as a read-only
argument.
-/

namespace Decent

/-- Pointwise update of a one-key Solidity mapping. -/
def mapSet (m : Nat → α) (k : Nat) (v : α) : Nat → α :=
  fun q => if q = k then v else m q

/-- Pointwise update of a two-key Solidity mapping. -/
def map2Set (m : Nat → Nat → α) (k1 k2 : Nat) (v : α) : Nat → Nat → α :=
  fun q1 q2 => if q1 = k1 ∧ q2 = k2 then v else m q1 q2

/-! ## PatientRegistry.sol -/

/-- Struct `Patient` of PatientRegistry.sol. -/
structure Patient where
  walletAddress : Nat
  profileCID : String
  isRegistered : Bool
  registeredAt : Nat
deriving Repr, DecidableEq

/-- Zero-initialised `Patient`, the default value of the `patients` mapping. -/
def defaultPatient : Patient := ⟨0, "", false, 0⟩

/-- Storage of the PatientRegistry contract. -/
structure PatientRegistryState where
  patients : Nat → Patient

/-- Freshly deployed PatientRegistry. -/
def initPatientRegistry : PatientRegistryState := ⟨fun _ => defaultPatient⟩

/-- Function `registerPatient(string _profileCID)` of PatientRegistry.sol. -/
def registerPatient (s : PatientRegistryState) (sender now : Nat) (profileCID : String) :
    Except String PatientRegistryState :=
  if (s.patients sender).isRegistered then .error "Patient already registered"
  else if profileCID.length = 0 then .error "Profile CID cannot be empty"
  else .ok ⟨mapSet s.patients sender ⟨sender, profileCID, true, now⟩⟩

/-- Function `updateProfile(string _newProfileCID)` of PatientRegistry.sol. -/
def patientUpdateProfile (s : PatientRegistryState) (sender : Nat) (newProfileCID : String) :
    Except String PatientRegistryState :=
  if ¬ (s.patients sender).isRegistered then .error "Patient not registered"
  else if newProfileCID.length = 0 then .error "Profile CID cannot be empty"
  else .ok ⟨mapSet s.patients sender { s.patients sender with profileCID := newProfileCID }⟩

/-- Function `isPatient(address _patient)` of PatientRegistry.sol. -/
def isPatient (s : PatientRegistryState) (a : Nat) : Bool :=
  (s.patients a).isRegistered

/-! ## DoctorRegistry.sol -/

/-- Enum `VerificationStatus` of DoctorRegistry.sol. -/
inductive VerificationStatus where
  | Pending | Verified | Rejected | Suspended
deriving Repr, DecidableEq

/-- Struct `Doctor` of DoctorRegistry.sol. -/
structure Doctor where
  walletAddress : Nat
  profileCID : String
  licenseNumber : String
  status : VerificationStatus
  isRegistered : Bool
  registeredAt : Nat
  verifiedAt : Nat
deriving Repr, DecidableEq

/-- Zero-initialised `Doctor` (enum default is the first member, `Pending`). -/
def defaultDoctor : Doctor := ⟨0, "", "", .Pending, false, 0, 0⟩

/-- Storage of the DoctorRegistry contract. -/
structure DoctorRegistryState where
  doctors : Nat → Doctor
  admin : Nat

/-- Freshly deployed DoctorRegistry (constructor sets `admin = msg.sender`). -/
def initDoctorRegistry (deployer : Nat) : DoctorRegistryState :=
  ⟨fun _ => defaultDoctor, deployer⟩

/-- Function `registerDoctor(string _profileCID, string _licenseNumber)` of DoctorRegistry.sol. -/
def registerDoctor (s : DoctorRegistryState) (sender now : Nat)
    (profileCID licenseNumber : String) : Except String DoctorRegistryState :=
  if (s.doctors sender).isRegistered then .error "Doctor already registered"
  else if profileCID.length = 0 then .error "Profile CID cannot be empty"
  else if licenseNumber.length = 0 then .error "License number required"
  else
    let d : Doctor := ⟨sender, profileCID, licenseNumber, .Pending, true, now, 0⟩
    .ok { s with doctors := mapSet s.doctors sender d }

/-- Function `verifyDoctor(address _doctor)` of DoctorRegistry.sol. -/
def verifyDoctor (s : DoctorRegistryState) (sender now doctor : Nat) :
    Except String DoctorRegistryState :=
  if ¬ (sender = s.admin) then .error "Only admin can perform this action"
  else if ¬ (s.doctors doctor).isRegistered then .error "Doctor not registered"
  else if ¬ ((s.doctors doctor).status = .Pending) then .error "Doctor not pending"
  else
    let d : Doctor := { s.doctors doctor with status := .Verified, verifiedAt := now }
    .ok { s with doctors := mapSet s.doctors doctor d }

/-- Function `isVerifiedDoctor(address _doctor)` of DoctorRegistry.sol. -/
def isVerifiedDoctor (s : DoctorRegistryState) (a : Nat) : Bool :=
  (s.doctors a).isRegistered && decide ((s.doctors a).status = .Verified)

/-! ## RecordRegistry.sol -/

/-- Enum `RecordType` of RecordRegistry.sol. -/
inductive RecordType where
  | General | LabResult | Imaging | Prescription | Diagnosis | Other
deriving Repr, DecidableEq

/-- Struct `Record` of RecordRegistry.sol (`bytes32 recordHash` as `Nat`). -/
structure Record where
  recordId : Nat
  owner : Nat
  dataCID : String
  encryptedKeyCID : String
  recordType : RecordType
  recordHash : Nat
  shortDescription : String
  addedBy : Nat
  createdAt : Nat
  isActive : Bool
deriving Repr, DecidableEq

/-- Zero-initialised `Record`, the default value of the `records` mapping. -/
def defaultRecord : Record := ⟨0, 0, "", "", .General, 0, "", 0, 0, false⟩

/-- Storage of the RecordRegistry contract. -/
structure RecordRegistryState where
  recordCounter : Nat
  records : Nat → Record
  patientRecords : Nat → List Nat

/-- Freshly deployed RecordRegistry. -/
def initRecordRegistry : RecordRegistryState := ⟨0, fun _ => defaultRecord, fun _ => []⟩

/-- Function `addRecord(...)` of RecordRegistry.sol.  The referenced PatientRegistry
and DoctorRegistry states are read-only arguments. -/
def addRecord (pr : PatientRegistryState) (dr : DoctorRegistryState)
    (s : RecordRegistryState) (sender now owner : Nat)
    (dataCID encryptedKeyCID : String) (recordType : RecordType)
    (recordHash : Nat) (shortDescription : String) :
    Except String (Nat × RecordRegistryState) :=
  if ¬ (isPatient pr owner = true) then .error "Owner must be registered patient"
  else if dataCID.length = 0 then .error "Data CID required"
  else if encryptedKeyCID.length = 0 then .error "Encrypted key CID required"
  else if shortDescription.length > 100 then .error "Description too long"
  else if ¬ (sender = owner ∨ isVerifiedDoctor dr sender = true) then
    .error "Unauthorized: only patient or verified doctor"
  else
    let newRecordId := s.recordCounter + 1
    .ok (newRecordId,
      { recordCounter := newRecordId,
        records := mapSet s.records newRecordId
          ⟨newRecordId, owner, dataCID, encryptedKeyCID, recordType,
           recordHash, shortDescription, sender, now, true⟩,
        patientRecords := mapSet s.patientRecords owner
          (s.patientRecords owner ++ [newRecordId]) })

/-- Function `deactivateRecord(uint256 _recordId)` of RecordRegistry.sol. -/
def deactivateRecord (s : RecordRegistryState) (sender recordId : Nat) :
    Except String RecordRegistryState :=
  if ¬ ((s.records recordId).owner = sender) then .error "Only owner can deactivate"
  else if ¬ ((s.records recordId).isActive = true) then .error "Record already inactive"
  else
    let r : Record := { s.records recordId with isActive := false }
    .ok { s with records := mapSet s.records recordId r }

/-- Function `getRecord(uint256 _recordId)` of RecordRegistry.sol. -/
def getRecord (s : RecordRegistryState) (recordId : Nat) : Except String Record :=
  if (s.records recordId).recordId = 0 then .error "Record does not exist"
  else .ok (s.records recordId)

/-- The counting pass of `getActivePatientRecordIds` (first loop). -/
def countActive (s : RecordRegistryState) : List Nat → Nat
  | [] => 0
  | id :: rest => (if (s.records id).isActive then 1 else 0) + countActive s rest

/-- The building pass of `getActivePatientRecordIds` (second loop): active ids
are written out in index order. -/
def buildActive (s : RecordRegistryState) : List Nat → List Nat
  | [] => []
  | id :: rest =>
      if (s.records id).isActive then id :: buildActive s rest else buildActive s rest

/-- Function `getActivePatientRecordIds(address _patient)` of RecordRegistry.sol. -/
def getActivePatientRecordIds (pr : PatientRegistryState) (s : RecordRegistryState)
    (patient : Nat) : Except String (List Nat) :=
  if ¬ (isPatient pr patient = true) then .error "Not a registered patient"
  else .ok (buildActive s (s.patientRecords patient))

/-! ## AccessControl.sol -/

/-- Enum `AccessStatus` of AccessControl.sol. -/
inductive AccessStatus where
  | None | Requested | Granted | Revoked | Expired
deriving Repr, DecidableEq

/-- Struct `AccessGrant` of AccessControl.sol. -/
structure AccessGrant where
  recordId : Nat
  patient : Nat
  doctor : Nat
  encryptedKeyCID : String
  grantedAt : Nat
  expiresAt : Nat
  status : AccessStatus
  requestReason : String
deriving Repr, DecidableEq

/-- Zero-initialised `AccessGrant` (enum default is the first member, `None`). -/
def defaultAccessGrant : AccessGrant := ⟨0, 0, 0, "", 0, 0, .None, ""⟩

/-- Storage of the AccessControl contract. -/
structure AccessControlState where
  accessCounter : Nat
  accessGrants : Nat → AccessGrant
  recordDoctorAccess : Nat → Nat → Nat
  doctorAccessibleRecords : Nat → List Nat
  patientPendingRequests : Nat → List Nat

/-- Freshly deployed AccessControl. -/
def initAccessControl : AccessControlState :=
  ⟨0, fun _ => defaultAccessGrant, fun _ _ => 0, fun _ => [], fun _ => []⟩

/-- Function `requestAccess(uint256 _recordId, string _reason)` of AccessControl.sol.
The `onlyVerifiedDoctor` modifier runs first; `recordRegistry.getRecord`
reverts (propagated) when the record does not exist.  The `require` inside
the `if (existingAccessId != 0)` block fails exactly when the existing grant
is `Granted` and `block.timestamp <= existing.expiresAt`. -/
def requestAccess (dr : DoctorRegistryState) (rr : RecordRegistryState)
    (s : AccessControlState) (sender now recordId : Nat) (reason : String) :
    Except String (Nat × AccessControlState) :=
  if ¬ (isVerifiedDoctor dr sender = true) then .error "Only verified doctors"
  else match getRecord rr recordId with
  | .error e => .error e
  | .ok record =>
    if ¬ (record.isActive = true) then .error "Record is not active"
    else if reason.length = 0 then .error "Reason required"
    else if reason.length > 200 then .error "Reason too long"
    else if s.recordDoctorAccess recordId sender ≠ 0 ∧
        (s.accessGrants (s.recordDoctorAccess recordId sender)).status = .Granted ∧
        now ≤ (s.accessGrants (s.recordDoctorAccess recordId sender)).expiresAt then
      .error "Already has active access"
    else
      let newAccessId := s.accessCounter + 1
      .ok (newAccessId,
        { accessCounter := newAccessId,
          accessGrants := mapSet s.accessGrants newAccessId
            ⟨recordId, record.owner, sender, "", 0, 0, .Requested, reason⟩,
          recordDoctorAccess := map2Set s.recordDoctorAccess recordId sender newAccessId,
          doctorAccessibleRecords := s.doctorAccessibleRecords,
          patientPendingRequests := mapSet s.patientPendingRequests record.owner
            (s.patientPendingRequests record.owner ++ [newAccessId]) })

/-- Function `grantAccess(uint256 _accessId, string _encryptedKeyCID, uint256
_durationDays)` of AccessControl.sol; `_durationDays * 1 days` is `durationDays * 86400`. -/
def grantAccess (s : AccessControlState) (sender now accessId : Nat)
    (encryptedKeyCID : String) (durationDays : Nat) :
    Except String AccessControlState :=
  if (s.accessGrants accessId).recordId = 0 then .error "Access request does not exist"
  else if ¬ ((s.accessGrants accessId).patient = sender) then
    .error "Only patient can grant access"
  else if ¬ ((s.accessGrants accessId).status = .Requested) then
    .error "Access not in requested state"
  else if encryptedKeyCID.length = 0 then .error "Encrypted key CID required"
  else if ¬ (0 < durationDays ∧ durationDays ≤ 365) then .error "Invalid duration"
  else
    .ok { s with
      accessGrants := mapSet s.accessGrants accessId
        { s.accessGrants accessId with
          encryptedKeyCID := encryptedKeyCID,
          grantedAt := now,
          expiresAt := now + durationDays * 86400,
          status := .Granted },
      doctorAccessibleRecords :=
        mapSet s.doctorAccessibleRecords (s.accessGrants accessId).doctor
          (s.doctorAccessibleRecords (s.accessGrants accessId).doctor ++
           [(s.accessGrants accessId).recordId]) }

/-- Function `revokeAccess(uint256 _accessId)` of AccessControl.sol. -/
def revokeAccess (s : AccessControlState) (sender now accessId : Nat) :
    Except String AccessControlState :=
  if (s.accessGrants accessId).recordId = 0 then .error "Access does not exist"
  else if ¬ ((s.accessGrants accessId).patient = sender) then
    .error "Only patient can revoke"
  else if ¬ ((s.accessGrants accessId).status = .Granted) then
    .error "Access not granted"
  else if ¬ (now ≤ (s.accessGrants accessId).expiresAt) then
    .error "Access already expired"
  else
    let g : AccessGrant := { s.accessGrants accessId with status := .Revoked }
    .ok { s with accessGrants := mapSet s.accessGrants accessId g }

/-- Function `hasActiveAccess(uint256 _recordId, address _doctor)` of AccessControl.sol. -/
def hasActiveAccess (s : AccessControlState) (now recordId doctor : Nat) : Bool :=
  if s.recordDoctorAccess recordId doctor = 0 then false
  else
    decide ((s.accessGrants (s.recordDoctorAccess recordId doctor)).status = .Granted ∧
      now ≤ (s.accessGrants (s.recordDoctorAccess recordId doctor)).expiresAt)

/-- Function `getEncryptedKey(uint256 _recordId)` of AccessControl.sol. -/
def getEncryptedKey (s : AccessControlState) (sender now recordId : Nat) :
    Except String String :=
  if s.recordDoctorAccess recordId sender = 0 then .error "No access request found"
  else if ¬ ((s.accessGrants (s.recordDoctorAccess recordId sender)).status = .Granted) then
    .error "Access not granted"
  else if ¬ (now ≤ (s.accessGrants (s.recordDoctorAccess recordId sender)).expiresAt) then
    .error "Access expired"
  else .ok (s.accessGrants (s.recordDoctorAccess recordId sender)).encryptedKeyCID

/-! ## Concrete deployment traces

Actors: address 1 is a patient, address 2 is a doctor, address 3 deployed
the DoctorRegistry (admin), address 5 is used for the dual-registration
scenario.  The `…Or` helpers extract the post-state of a successful call
(falling back to the initial state on error; the theorems below always
also assert that the call succeeded). -/

def prOr (e : Except String PatientRegistryState) : PatientRegistryState :=
  match e with | .ok s => s | .error _ => initPatientRegistry

def drOr (e : Except String DoctorRegistryState) : DoctorRegistryState :=
  match e with | .ok s => s | .error _ => initDoctorRegistry 3

def rrOr (e : Except String (Nat × RecordRegistryState)) : RecordRegistryState :=
  match e with | .ok p => p.2 | .error _ => initRecordRegistry

def acOr (e : Except String (Nat × AccessControlState)) : AccessControlState :=
  match e with | .ok p => p.2 | .error _ => initAccessControl

def acOrG (e : Except String AccessControlState) : AccessControlState :=
  match e with | .ok s => s | .error _ => initAccessControl

def exPRreg : Except String PatientRegistryState :=
  registerPatient initPatientRegistry 1 10 "patient-profile"

def exPR : PatientRegistryState := prOr exPRreg

def exDRreg : Except String DoctorRegistryState :=
  registerDoctor (initDoctorRegistry 3) 2 20 "doctor-profile" "license-1"

def exDRver : Except String DoctorRegistryState := verifyDoctor (drOr exDRreg) 3 30 2

def exDR : DoctorRegistryState := drOr exDRver

def exRRadd : Except String (Nat × RecordRegistryState) :=
  addRecord exPR exDR initRecordRegistry 1 40 1 "data-cid" "owner-key-cid"
    .LabResult 7 "Annual blood work"

def exRR : RecordRegistryState := rrOr exRRadd

/-- Doctor 2 requests access to record 1 at time 100 (access id 1). -/
def exReq1 : Except String (Nat × AccessControlState) :=
  requestAccess exDR exRR initAccessControl 2 100 1 "consult"

def exAC_A : AccessControlState := acOr exReq1

/-- Doctor 2 requests again at time 110 while access 1 is still `Requested`
(access id 2; the (record, doctor) pointer now points to 2). -/
def exReq2 : Except String (Nat × AccessControlState) :=
  requestAccess exDR exRR exAC_A 2 110 1 "second consult"

def exAC_B : AccessControlState := acOr exReq2

/-- Patient 1 grants the superseded access 1 at time 1000 for 30 days. -/
def exGrant1 : Except String AccessControlState :=
  grantAccess exAC_B 1 1000 1 "wrapped-key-1" 30

def exAC_C : AccessControlState := acOrG exGrant1

/-- Patient 1 grants access 2 at time 1100 for 60 days. -/
def exGrant2 : Except String AccessControlState :=
  grantAccess exAC_C 1 1100 2 "wrapped-key-2" 60

def exAC_D : AccessControlState := acOrG exGrant2

/-- Patient 1 revokes access 1 at time 1200, well within its window. -/
def exRevoke1 : Except String AccessControlState := revokeAccess exAC_D 1 1200 1

def exAC_E : AccessControlState := acOrG exRevoke1

/-- Normal flow: a single request (access id 1) at time 100 ... -/
def exReqN : Except String (Nat × AccessControlState) :=
  requestAccess exDR exRR initAccessControl 2 100 1 "checkup"

def exAC_N1 : AccessControlState := acOr exReqN

/-- ... granted by patient 1 at time 200 for 30 days. -/
def exGrantN : Except String AccessControlState :=
  grantAccess exAC_N1 1 200 1 "wrapped-key-n" 30

def exAC_N2 : AccessControlState := acOrG exGrantN

/-- Patient 1 revokes the normal-flow grant at time 250. -/
def exRevokeN : Except String AccessControlState := revokeAccess exAC_N2 1 250 1

def exAC_N3 : AccessControlState := acOrG exRevokeN

/-- Extraction of the post-state of a successful `deactivateRecord`. -/
def rrOrG (e : Except String RecordRegistryState) : RecordRegistryState :=
  match e with | .ok s => s | .error _ => initRecordRegistry

/-- Patient 1 deactivates record 1. -/
def exDeact : Except String RecordRegistryState := deactivateRecord exRR 1 1

/-- Address 5 registers as a patient in the PatientRegistry. -/
def exBothP : Except String PatientRegistryState :=
  registerPatient initPatientRegistry 5 10 "profile-p"

/-- The same address 5 registers as a doctor in the DoctorRegistry. -/
def exBothD : Except String DoctorRegistryState :=
  registerDoctor (initDoctorRegistry 3) 5 10 "profile-d" "lic-5"

/-! ## Helper lemmas -/

@[simp] theorem mapSet_same (m : Nat → α) (k : Nat) (v : α) : mapSet m k v k = v := by
  simp [mapSet]

@[simp] theorem mapSet_other (m : Nat → α) (k : Nat) (v : α) (q : Nat) (h : q ≠ k) :
    mapSet m k v q = m q := by
  simp [mapSet, h]

@[simp] theorem map2Set_same (m : Nat → Nat → α) (k1 k2 : Nat) (v : α) :
    map2Set m k1 k2 v k1 k2 = v := by
  simp [map2Set]

/-- Unfolding of a true `hasActiveAccess`: the pointer is non-zero and the
pointed-to grant is `Granted` and unexpired. -/
theorem hasActiveAccess_true_iff (st : AccessControlState) (now r d : Nat) :
    hasActiveAccess st now r d = true ↔
      st.recordDoctorAccess r d ≠ 0 ∧
      (st.accessGrants (st.recordDoctorAccess r d)).status = .Granted ∧
      now ≤ (st.accessGrants (st.recordDoctorAccess r d)).expiresAt := by
  unfold hasActiveAccess
  split <;> simp_all

/-- Destructor for a successful `registerPatient`. -/
theorem registerPatient_ok (s : PatientRegistryState) (sender now : Nat)
    (profileCID : String) (s' : PatientRegistryState)
    (h : registerPatient s sender now profileCID = .ok s') :
    (s.patients sender).isRegistered = false ∧ profileCID.length ≠ 0 ∧
    s'.patients = mapSet s.patients sender ⟨sender, profileCID, true, now⟩ := by
  unfold registerPatient at h
  repeat' split at h
  all_goals simp_all
  cases h
  simp

/-- Destructor for a successful `registerDoctor`. -/
theorem registerDoctor_ok (s : DoctorRegistryState) (sender now : Nat)
    (profileCID licenseNumber : String) (s' : DoctorRegistryState)
    (h : registerDoctor s sender now profileCID licenseNumber = .ok s') :
    (s.doctors sender).isRegistered = false ∧ profileCID.length ≠ 0 ∧
    licenseNumber.length ≠ 0 ∧
    s'.doctors = mapSet s.doctors sender
      ⟨sender, profileCID, licenseNumber, .Pending, true, now, 0⟩ := by
  unfold registerDoctor at h
  repeat' split at h
  all_goals simp_all
  cases h
  simp

/-- Destructor for a successful `getRecord`. -/
theorem getRecord_ok (s : RecordRegistryState) (recordId : Nat) (r : Record)
    (h : getRecord s recordId = .ok r) :
    (s.records recordId).recordId ≠ 0 ∧ r = s.records recordId := by
  unfold getRecord at h
  split at h <;> simp_all

/-- Destructor for a successful `requestAccess`: all preconditions held, the
fresh grant has id `accessCounter + 1`, is in state `Requested`, and the
(record, doctor) pointer now names it. -/
theorem requestAccess_ok (dr : DoctorRegistryState) (rr : RecordRegistryState)
    (s : AccessControlState) (sender now recordId : Nat) (reason : String)
    (ret : Nat) (s' : AccessControlState)
    (h : requestAccess dr rr s sender now recordId reason = .ok (ret, s')) :
    isVerifiedDoctor dr sender = true ∧
    (rr.records recordId).recordId ≠ 0 ∧
    (rr.records recordId).isActive = true ∧
    reason.length ≠ 0 ∧ reason.length ≤ 200 ∧
    ¬ (s.recordDoctorAccess recordId sender ≠ 0 ∧
       (s.accessGrants (s.recordDoctorAccess recordId sender)).status = .Granted ∧
       now ≤ (s.accessGrants (s.recordDoctorAccess recordId sender)).expiresAt) ∧
    ret = s.accessCounter + 1 ∧
    s'.accessCounter = s.accessCounter + 1 ∧
    s'.accessGrants = mapSet s.accessGrants (s.accessCounter + 1)
      ⟨recordId, (rr.records recordId).owner, sender, "", 0, 0, .Requested, reason⟩ ∧
    s'.recordDoctorAccess = map2Set s.recordDoctorAccess recordId sender (s.accessCounter + 1) ∧
    s'.doctorAccessibleRecords = s.doctorAccessibleRecords := by
  unfold requestAccess at h
  split at h
  · simp_all
  next hdoc =>
    split at h
    next e heq => simp_all
    next record heq =>
      obtain ⟨hne, hrec⟩ := getRecord_ok rr recordId record heq
      subst hrec
      repeat' split at h
      all_goals simp_all
      obtain ⟨hret, hs⟩ := h
      subst hret
      subst hs
      simp_all

/-- Destructor for a successful `grantAccess`. -/
theorem grantAccess_ok (s : AccessControlState) (sender now accessId : Nat)
    (key : String) (n : Nat) (s' : AccessControlState)
    (h : grantAccess s sender now accessId key n = .ok s') :
    (s.accessGrants accessId).recordId ≠ 0 ∧
    (s.accessGrants accessId).patient = sender ∧
    (s.accessGrants accessId).status = .Requested ∧
    key.length ≠ 0 ∧ 0 < n ∧ n ≤ 365 ∧
    s'.accessCounter = s.accessCounter ∧
    s'.accessGrants = mapSet s.accessGrants accessId
      { s.accessGrants accessId with
        encryptedKeyCID := key, grantedAt := now,
        expiresAt := now + n * 86400, status := .Granted } ∧
    s'.recordDoctorAccess = s.recordDoctorAccess ∧
    s'.patientPendingRequests = s.patientPendingRequests := by
  unfold grantAccess at h
  repeat' split at h
  all_goals simp_all
  cases h
  simp

/-- Characterisation of when `grantAccess` succeeds. -/
theorem grantAccess_isOk_iff (s : AccessControlState) (sender now accessId : Nat)
    (key : String) (n : Nat) :
    (grantAccess s sender now accessId key n).isOk = true ↔
      ((s.accessGrants accessId).recordId ≠ 0 ∧
       (s.accessGrants accessId).patient = sender ∧
       (s.accessGrants accessId).status = .Requested ∧
       key.length ≠ 0 ∧ 0 < n ∧ n ≤ 365) := by
  unfold grantAccess
  repeat' split
  all_goals simp_all [Except.isOk, Except.toBool]

/-- Destructor for a successful `revokeAccess`. -/
theorem revokeAccess_ok (s : AccessControlState) (sender now accessId : Nat)
    (s' : AccessControlState)
    (h : revokeAccess s sender now accessId = .ok s') :
    (s.accessGrants accessId).recordId ≠ 0 ∧
    (s.accessGrants accessId).patient = sender ∧
    (s.accessGrants accessId).status = .Granted ∧
    now ≤ (s.accessGrants accessId).expiresAt ∧
    s'.accessGrants = mapSet s.accessGrants accessId
      { s.accessGrants accessId with status := .Revoked } ∧
    s'.recordDoctorAccess = s.recordDoctorAccess := by
  unfold revokeAccess at h
  repeat' split at h
  all_goals simp_all
  cases h
  simp

/-- Destructor for a successful `deactivateRecord`. -/
theorem deactivateRecord_ok (s : RecordRegistryState) (sender recordId : Nat)
    (s' : RecordRegistryState)
    (h : deactivateRecord s sender recordId = .ok s') :
    (s.records recordId).owner = sender ∧
    (s.records recordId).isActive = true ∧
    s'.records = mapSet s.records recordId
      { s.records recordId with isActive := false } ∧
    s'.recordCounter = s.recordCounter ∧
    s'.patientRecords = s.patientRecords := by
  unfold deactivateRecord at h
  repeat' split at h
  all_goals simp_all
  cases h
  simp

/-- The build pass of `getActivePatientRecordIds` is an order-preserving
filter of the index by the active flag. -/
theorem buildActive_eq_filter (s : RecordRegistryState) (l : List Nat) :
    buildActive s l = l.filter (fun id => (s.records id).isActive) := by
  induction l with
  | nil => rfl
  | cons id rest ih =>
      unfold buildActive
      rw [List.filter_cons]
      split <;> simp_all

/-- The counting pass of `getActivePatientRecordIds` (which sizes the result
array) agrees with the length of the build pass. -/
theorem countActive_eq_length (s : RecordRegistryState) (l : List Nat) :
    countActive s l = (buildActive s l).length := by
  induction l with
  | nil => rfl
  | cons id rest ih =>
      unfold countActive buildActive
      split <;> simp_all [Nat.add_comm]

/-! ## Claim C1 -/

/-- C1 (corrected claim): `hasActiveAccess(r, d)` returns true iff the
(record, doctor) pointer for (r, d) is non-zero and the grant it refers to
has status `Granted` and `now ≤ expiresAt`; and after a successful
`grantAccess` with `durationDays` n at time t, provided the (r, d) pointer
refers to that grant, `hasActiveAccess` returns true exactly at the times
`now ≤ t + n` days — true before n days have elapsed and false after.  The
proviso on the pointer is forced: the pointer may refer to a newer request
for the pair, in which case the granted access is not consulted at all. -/
theorem hasActiveAccess_spec
    (s s' : AccessControlState) (sender t accessId : Nat) (key : String)
    (n recordId doctor now : Nat)
    (hgrant : grantAccess s sender t accessId key n = .ok s')
    (hptr : s'.recordDoctorAccess recordId doctor = accessId)
    (hne : accessId ≠ 0) :
    (∀ (st : AccessControlState) (now1 r d : Nat),
        hasActiveAccess st now1 r d = true ↔
          (st.recordDoctorAccess r d ≠ 0 ∧
           (st.accessGrants (st.recordDoctorAccess r d)).status = .Granted ∧
           now1 ≤ (st.accessGrants (st.recordDoctorAccess r d)).expiresAt)) ∧
    (hasActiveAccess s' now recordId doctor = true ↔ now ≤ t + n * 86400) := by
  obtain ⟨-, -, -, -, -, -, -, hg, -, -⟩ := grantAccess_ok s sender t accessId key n s' hgrant
  refine ⟨fun st now1 r d => hasActiveAccess_true_iff st now1 r d, ?_⟩
  rw [hasActiveAccess_true_iff, hptr, hg]
  simp [hne]

/-- C1 as stated is refuted: in this trace `grantAccess` on access id 1
(durationDays 30, granted at time 1000) succeeds, yet `hasActiveAccess` at
time 1000 — before 30 days have elapsed from the grant — returns false,
because a second request by the same doctor had overwritten the
(record, doctor) pointer to access id 2. -/
theorem hasActiveAccess_false_despite_recent_grant :
    exReq1.isOk = true ∧ exReq2.isOk = true ∧ exGrant1.isOk = true ∧
    (exAC_C.accessGrants 1).status = AccessStatus.Granted ∧
    (exAC_C.accessGrants 1).grantedAt = 1000 ∧
    (exAC_C.accessGrants 1).expiresAt = 1000 + 30 * 86400 ∧
    hasActiveAccess exAC_C 1000 1 2 = false := by decide

/-- Witness for C1 (corrected) on the normal single-request trace. -/
theorem hasActiveAccess_spec_witness :
    hasActiveAccess exAC_N2 200 1 2 = true ↔ 200 ≤ 200 + 30 * 86400 :=
  (hasActiveAccess_spec exAC_N1 exAC_N2 1 200 1 "wrapped-key-n" 30 1 2 200 rfl
    (by decide) (by decide)).2

/-! ## Claim C2 -/

/-- C2: for a verified doctor calling `requestAccess` on an existing, active
record with a valid reason, the call fails with `AlreadyActive` ("Already has
active access") iff the (record, doctor) pointer names a prior grant whose
status is `Granted` and which is unexpired at call time; otherwise (prior
grant lapsed, revoked, or absent) it succeeds, creates a fresh grant in state
`Requested` under the next access id, and overwrites the (record, doctor)
pointer to that newest id. -/
theorem requestAccess_spec
    (dr : DoctorRegistryState) (rr : RecordRegistryState) (s : AccessControlState)
    (sender now recordId : Nat) (reason : String)
    (hdoc : isVerifiedDoctor dr sender = true)
    (hex : (rr.records recordId).recordId ≠ 0)
    (hact : (rr.records recordId).isActive = true)
    (hr1 : reason.length ≠ 0) (hr2 : reason.length ≤ 200) :
    (requestAccess dr rr s sender now recordId reason = .error "Already has active access" ↔
      (s.recordDoctorAccess recordId sender ≠ 0 ∧
       (s.accessGrants (s.recordDoctorAccess recordId sender)).status = .Granted ∧
       now ≤ (s.accessGrants (s.recordDoctorAccess recordId sender)).expiresAt)) ∧
    (¬ (s.recordDoctorAccess recordId sender ≠ 0 ∧
        (s.accessGrants (s.recordDoctorAccess recordId sender)).status = .Granted ∧
        now ≤ (s.accessGrants (s.recordDoctorAccess recordId sender)).expiresAt) →
      ∃ s', requestAccess dr rr s sender now recordId reason =
          .ok (s.accessCounter + 1, s') ∧
        (s'.accessGrants (s.accessCounter + 1)).status = .Requested ∧
        s'.recordDoctorAccess recordId sender = s.accessCounter + 1) := by
  have hkey : requestAccess dr rr s sender now recordId reason =
      if s.recordDoctorAccess recordId sender ≠ 0 ∧
          (s.accessGrants (s.recordDoctorAccess recordId sender)).status = .Granted ∧
          now ≤ (s.accessGrants (s.recordDoctorAccess recordId sender)).expiresAt then
        .error "Already has active access"
      else
        .ok (s.accessCounter + 1,
          { accessCounter := s.accessCounter + 1,
            accessGrants := mapSet s.accessGrants (s.accessCounter + 1)
              ⟨recordId, (rr.records recordId).owner, sender, "", 0, 0, .Requested, reason⟩,
            recordDoctorAccess :=
              map2Set s.recordDoctorAccess recordId sender (s.accessCounter + 1),
            doctorAccessibleRecords := s.doctorAccessibleRecords,
            patientPendingRequests :=
              mapSet s.patientPendingRequests (rr.records recordId).owner
                (s.patientPendingRequests (rr.records recordId).owner ++
                 [s.accessCounter + 1]) }) := by
    unfold requestAccess getRecord
    simp [hdoc, hex, hact, hr1, Nat.not_lt.mpr hr2]
  by_cases hcond : (s.recordDoctorAccess recordId sender ≠ 0 ∧
      (s.accessGrants (s.recordDoctorAccess recordId sender)).status = .Granted ∧
      now ≤ (s.accessGrants (s.recordDoctorAccess recordId sender)).expiresAt)
  · rw [hkey]
    exact ⟨by simp [hcond], fun hn => absurd hcond hn⟩
  · constructor
    · rw [hkey]
      simp [hcond]
    · intro hn
      have hok := hkey.trans (if_neg hcond)
      exact ⟨_, hok, by simp, by simp [map2Set]⟩

/-- Witness for C2 on the fresh AccessControl state. -/
theorem requestAccess_spec_witness :
    requestAccess exDR exRR initAccessControl 2 100 1 "consult" =
        .error "Already has active access" ↔
      (initAccessControl.recordDoctorAccess 1 2 ≠ 0 ∧
       (initAccessControl.accessGrants
          (initAccessControl.recordDoctorAccess 1 2)).status = .Granted ∧
       100 ≤ (initAccessControl.accessGrants
          (initAccessControl.recordDoctorAccess 1 2)).expiresAt) :=
  (requestAccess_spec exDR exRR initAccessControl 2 100 1 "consult"
    (by decide) (by decide) (by decide) (by decide) (by decide)).1

/-! ## Claim C3 -/

/-- C3 as stated is refuted: the two registries are independent contracts, so
address 5 successfully registers both as a patient (in the PatientRegistry)
and as a doctor (in the DoctorRegistry) and then holds both roles
simultaneously. -/
theorem same_identity_holds_both_roles :
    exBothP.isOk = true ∧ exBothD.isOk = true ∧
    isPatient (prOr exBothP) 5 = true ∧
    ((drOr exBothD).doctors 5).isRegistered = true := by decide

/-- C3 (corrected claim): `registerPatient` fails with `AlreadyRegistered`
("Patient already registered") exactly when the caller is already a
registered patient, and `registerDoctor` ("Doctor already registered")
exactly when the caller is already a registered doctor, so each registration
succeeds at most once per identity; but the two registries are independent,
so the same identity can simultaneously hold both roles. -/
theorem register_at_most_once_per_registry
    (ps ps' : PatientRegistryState) (ds ds' : DoctorRegistryState)
    (a now nowD now2 : Nat) (p p2 q q2 l l2 : String)
    (hp : registerPatient ps a now p = .ok ps')
    (hd : registerDoctor ds a nowD q l = .ok ds') :
    (∀ (t : PatientRegistryState) (b n3 : Nat) (p3 : String),
        registerPatient t b n3 p3 = .error "Patient already registered" ↔
          (t.patients b).isRegistered = true) ∧
    (∀ (t : DoctorRegistryState) (b n3 : Nat) (p3 l3 : String),
        registerDoctor t b n3 p3 l3 = .error "Doctor already registered" ↔
          (t.doctors b).isRegistered = true) ∧
    registerPatient ps' a now2 p2 = .error "Patient already registered" ∧
    registerDoctor ds' a now2 q2 l2 = .error "Doctor already registered" := by
  have hiffP : ∀ (t : PatientRegistryState) (b n3 : Nat) (p3 : String),
      registerPatient t b n3 p3 = .error "Patient already registered" ↔
        (t.patients b).isRegistered = true := by
    intro t b n3 p3
    unfold registerPatient
    repeat' split
    all_goals simp_all
  have hiffD : ∀ (t : DoctorRegistryState) (b n3 : Nat) (p3 l3 : String),
      registerDoctor t b n3 p3 l3 = .error "Doctor already registered" ↔
        (t.doctors b).isRegistered = true := by
    intro t b n3 p3 l3
    unfold registerDoctor
    repeat' split
    all_goals simp_all
  obtain ⟨-, -, hps⟩ := registerPatient_ok ps a now p ps' hp
  obtain ⟨-, -, -, hds⟩ := registerDoctor_ok ds a nowD q l ds' hd
  refine ⟨hiffP, hiffD, ?_, ?_⟩
  · rw [hiffP]
    rw [hps]
    simp
  · rw [hiffD]
    rw [hds]
    simp

/-- Witness for C3 (corrected) at concrete registrations. -/
theorem register_at_most_once_per_registry_witness :
    registerPatient (prOr exBothP) 5 99 "again" = .error "Patient already registered" ∧
    registerDoctor (drOr exBothD) 5 99 "again" "lic-9" = .error "Doctor already registered" := by
  have h := register_at_most_once_per_registry initPatientRegistry (prOr exBothP)
    (initDoctorRegistry 3) (drOr exBothD) 5 10 10 99 "profile-p" "again"
    "profile-d" "again" "lic-5" "lic-9" rfl rfl
  exact ⟨h.2.2.1, h.2.2.2⟩

/-- Destructor for a successful `addRecord`. -/
theorem addRecord_ok (pr : PatientRegistryState) (dr : DoctorRegistryState)
    (s : RecordRegistryState) (sender now owner : Nat)
    (dataCID keyCID : String) (rt : RecordType) (rh : Nat) (desc : String)
    (ret : Nat) (s' : RecordRegistryState)
    (h : addRecord pr dr s sender now owner dataCID keyCID rt rh desc = .ok (ret, s')) :
    isPatient pr owner = true ∧ dataCID.length ≠ 0 ∧ keyCID.length ≠ 0 ∧
    desc.length ≤ 100 ∧ (sender = owner ∨ isVerifiedDoctor dr sender = true) ∧
    ret = s.recordCounter + 1 ∧
    s'.recordCounter = s.recordCounter + 1 ∧
    s'.records = mapSet s.records (s.recordCounter + 1)
      ⟨s.recordCounter + 1, owner, dataCID, keyCID, rt, rh, desc, sender, now, true⟩ ∧
    s'.patientRecords = mapSet s.patientRecords owner
      (s.patientRecords owner ++ [s.recordCounter + 1]) := by
  unfold addRecord at h
  repeat' split at h
  all_goals simp_all
  obtain ⟨hret, hs⟩ := h
  subst hret
  subst hs
  simp_all
  tauto

/-- Sanity of the concrete traces: every construction step succeeded. -/
theorem exTrace_wellFormed :
    exPRreg.isOk = true ∧ exDRreg.isOk = true ∧ exDRver.isOk = true ∧
    exRRadd.isOk = true ∧ exReq1.isOk = true ∧ exReq2.isOk = true ∧
    exGrant1.isOk = true ∧ exGrant2.isOk = true ∧ exRevoke1.isOk = true ∧
    exReqN.isOk = true ∧ exGrantN.isOk = true ∧ exRevokeN.isOk = true ∧
    exDeact.isOk = true ∧ exBothP.isOk = true ∧ exBothD.isOk = true := by decide

/-! ## Claim C4 -/

/-- C4: `grantAccess(a, wrappedKeyDigest, durationDays)` succeeds iff the
grant exists, the caller equals the grant's patient, its status is
`Requested`, the digest is non-empty and durationDays ∈ [1, 365]; and after
a success, a second `grantAccess` on the same id by the patient fails with
`InvalidState` ("Access not in requested state"), the state then being
`Granted`. -/
theorem grantAccess_preconditions
    (s : AccessControlState) (sender now accessId : Nat) (key : String) (n : Nat) :
    ((grantAccess s sender now accessId key n).isOk = true ↔
      ((s.accessGrants accessId).recordId ≠ 0 ∧
       (s.accessGrants accessId).patient = sender ∧
       (s.accessGrants accessId).status = .Requested ∧
       key.length ≠ 0 ∧ 1 ≤ n ∧ n ≤ 365)) ∧
    (∀ s', grantAccess s sender now accessId key n = .ok s' →
      (s'.accessGrants accessId).status = .Granted ∧
      ∀ now2 key2 n2, grantAccess s' sender now2 accessId key2 n2 =
        .error "Access not in requested state") := by
  constructor
  · exact grantAccess_isOk_iff s sender now accessId key n
  · intro s' h
    obtain ⟨h1, h2, -, -, -, -, -, hg, -, -⟩ := grantAccess_ok s sender now accessId key n s' h
    have hga : s'.accessGrants accessId =
        { s.accessGrants accessId with
          encryptedKeyCID := key, grantedAt := now,
          expiresAt := now + n * 86400, status := .Granted } := by
      rw [hg]
      simp
    refine ⟨by rw [hga], fun now2 key2 n2 => ?_⟩
    unfold grantAccess
    rw [hga]
    simp [h1, h2]

/-- Witness for C4: granting the already-granted access 1 again fails. -/
theorem grantAccess_preconditions_witness :
    grantAccess exAC_N2 1 300 1 "another-key" 60 = .error "Access not in requested state" :=
  ((grantAccess_preconditions exAC_N1 1 200 1 "wrapped-key-n" 30).2 exAC_N2 rfl).2
    300 "another-key" 60

/-! ## Claim C5 -/

/-- C5 as stated is refuted: `revokeAccess` on access 1 succeeds at time
1200, within its window and after setting its status to `Revoked`, yet the
immediately following `hasActiveAccess` for the (record, doctor) pair
returns true, because the pair's pointer refers to the later grant 2, which
is still `Granted` and unexpired. -/
theorem hasActiveAccess_true_after_revoke :
    exGrant1.isOk = true ∧ exGrant2.isOk = true ∧ exRevoke1.isOk = true ∧
    (exAC_E.accessGrants 1).status = AccessStatus.Revoked ∧
    hasActiveAccess exAC_E 1200 1 2 = true := by decide

/-- C5 (corrected claim): `revokeAccess` succeeds only when the caller equals
the grant's patient, the status is `Granted` and now ≤ expiresAt (a lapsed
grant is rejected with `AlreadyExpired`); on success the status becomes
`Revoked`, so an immediately following `hasActiveAccess` returns false for
every (record, doctor) pair whose pointer refers to the revoked grant — in
particular after the normal request-grant-revoke flow — and a second
`revokeAccess` on the same id fails with `InvalidState` ("Access not
granted").  The pointer proviso is forced: the pair's pointer may refer to a
newer, still-active grant. -/
theorem revokeAccess_spec
    (s : AccessControlState) (sender now accessId : Nat) :
    (∀ s', revokeAccess s sender now accessId = .ok s' →
      ((s.accessGrants accessId).patient = sender ∧
       (s.accessGrants accessId).status = .Granted ∧
       now ≤ (s.accessGrants accessId).expiresAt) ∧
      (s'.accessGrants accessId).status = .Revoked ∧
      (∀ r d now2, s'.recordDoctorAccess r d = accessId →
        hasActiveAccess s' now2 r d = false) ∧
      (∀ now2, revokeAccess s' sender now2 accessId = .error "Access not granted")) ∧
    ((s.accessGrants accessId).recordId ≠ 0 →
      (s.accessGrants accessId).patient = sender →
      (s.accessGrants accessId).status = .Granted →
      (s.accessGrants accessId).expiresAt < now →
      revokeAccess s sender now accessId = .error "Access already expired") := by
  constructor
  · intro s' h
    obtain ⟨h0, h1, h2, h3, hg, hrda⟩ := revokeAccess_ok s sender now accessId s' h
    have hga : s'.accessGrants accessId =
        { s.accessGrants accessId with status := .Revoked } := by
      rw [hg]
      simp
    refine ⟨⟨h1, h2, h3⟩, by rw [hga], ?_, ?_⟩
    · intro r d now2 hp
      unfold hasActiveAccess
      rw [hp]
      by_cases hz : accessId = 0
      · simp [hz]
      · simp [hz, hga]
    · intro now2
      unfold revokeAccess
      rw [hga]
      simp [h0, h1]
  · intro h0 h1 h2 h3
    unfold revokeAccess
    simp [h0, h1, h2, Nat.not_le.mpr h3]

/-- Witness for C5 (corrected) on the normal flow: revoke then observe, and
revoking the same grant once lapsed (expiresAt = 200 + 30 days = 2592200,
now = 3000000) fails with AlreadyExpired. -/
theorem revokeAccess_spec_witness :
    hasActiveAccess exAC_N3 250 1 2 = false ∧
    revokeAccess exAC_N3 1 260 1 = .error "Access not granted" ∧
    revokeAccess exAC_N2 1 3000000 1 = .error "Access already expired" := by
  have h := (revokeAccess_spec exAC_N2 1 250 1).1 exAC_N3 rfl
  have hexp := (revokeAccess_spec exAC_N2 1 3000000 1).2
    (by decide) (by decide) (by decide) (by decide)
  exact ⟨h.2.2.1 1 2 250 (by decide), h.2.2.2 260, hexp⟩

/-! ## Claim C6 -/

/-- C6: `getEncryptedKey(recordId)` called by c fails with `NotFound` ("No
access request found") when the (recordId, c) pointer is zero, with
`NotGranted` ("Access not granted") when the pointed-to grant's status is
not `Granted`, with `Expired` ("Access expired") when the current time is
past its expiresAt, and otherwise returns exactly the doctor-specific
wrapped-key digest that `grantAccess` stored for that grant. -/
theorem getEncryptedKey_spec (s : AccessControlState) (sender now recordId : Nat) :
    (s.recordDoctorAccess recordId sender = 0 →
      getEncryptedKey s sender now recordId = .error "No access request found") ∧
    (s.recordDoctorAccess recordId sender ≠ 0 →
      (s.accessGrants (s.recordDoctorAccess recordId sender)).status ≠ .Granted →
      getEncryptedKey s sender now recordId = .error "Access not granted") ∧
    (s.recordDoctorAccess recordId sender ≠ 0 →
      (s.accessGrants (s.recordDoctorAccess recordId sender)).status = .Granted →
      (s.accessGrants (s.recordDoctorAccess recordId sender)).expiresAt < now →
      getEncryptedKey s sender now recordId = .error "Access expired") ∧
    (s.recordDoctorAccess recordId sender ≠ 0 →
      (s.accessGrants (s.recordDoctorAccess recordId sender)).status = .Granted →
      now ≤ (s.accessGrants (s.recordDoctorAccess recordId sender)).expiresAt →
      getEncryptedKey s sender now recordId =
        .ok (s.accessGrants (s.recordDoctorAccess recordId sender)).encryptedKeyCID) ∧
    (∀ (s0 : AccessControlState) (p t a : Nat) (key : String) (n : Nat),
      grantAccess s0 p t a key n = .ok s →
      s.recordDoctorAccess recordId sender = a → a ≠ 0 →
      now ≤ t + n * 86400 →
      getEncryptedKey s sender now recordId = .ok key) := by
  refine ⟨?_, ?_, ?_, ?_, ?_⟩
  · intro h0
    unfold getEncryptedKey
    simp [h0]
  · intro h0 h1
    unfold getEncryptedKey
    simp [h0, h1]
  · intro h0 h1 h2
    unfold getEncryptedKey
    simp [h0, h1, Nat.not_le.mpr h2]
  · intro h0 h1 h2
    unfold getEncryptedKey
    simp [h0, h1, h2]
  · intro s0 p t a key n hg hp ha hle
    obtain ⟨-, -, -, -, -, -, -, hga, -, -⟩ := grantAccess_ok s0 p t a key n s hg
    unfold getEncryptedKey
    rw [hp, hga]
    simp [ha, hle]

/-- Witness for C6: the doctor fetches exactly the stored wrapped key. -/
theorem getEncryptedKey_spec_witness :
    getEncryptedKey exAC_N2 2 300 1 = .ok "wrapped-key-n" :=
  (getEncryptedKey_spec exAC_N2 2 300 1).2.2.2.2 exAC_N1 1 200 1 "wrapped-key-n" 30
    rfl (by decide) (by decide) (by decide)

/-! ## Claim C7 -/

/-- C7: `addRecord(owner, …)` fails with `OwnerNotPatient` ("Owner must be
registered patient") whenever owner is not a registered Patient — including
a verified doctor naming themselves as owner; it succeeds iff additionally
both digests are non-empty, the description is at most 100 units, and the
caller is the owner itself or a verified Doctor; each `Unauthorized`,
`EmptyDigest` or `DescriptionTooLong` failure correctly attributes its
condition; and on success it assigns the next monotonic identifier, appends
the id to the owner's record index, and returns the new identifier. -/
theorem addRecord_spec
    (pr : PatientRegistryState) (dr : DoctorRegistryState)
    (s : RecordRegistryState) (sender now owner : Nat)
    (dataCID keyCID : String) (rt : RecordType) (rh : Nat) (desc : String) :
    (isPatient pr owner = false →
      addRecord pr dr s sender now owner dataCID keyCID rt rh desc =
        .error "Owner must be registered patient") ∧
    ((addRecord pr dr s sender now owner dataCID keyCID rt rh desc).isOk = true ↔
      (isPatient pr owner = true ∧ dataCID.length ≠ 0 ∧ keyCID.length ≠ 0 ∧
       desc.length ≤ 100 ∧ (sender = owner ∨ isVerifiedDoctor dr sender = true))) ∧
    (addRecord pr dr s sender now owner dataCID keyCID rt rh desc =
        .error "Unauthorized: only patient or verified doctor" →
      ¬ (sender = owner ∨ isVerifiedDoctor dr sender = true)) ∧
    (addRecord pr dr s sender now owner dataCID keyCID rt rh desc =
        .error "Data CID required" → dataCID.length = 0) ∧
    (addRecord pr dr s sender now owner dataCID keyCID rt rh desc =
        .error "Encrypted key CID required" → keyCID.length = 0) ∧
    (addRecord pr dr s sender now owner dataCID keyCID rt rh desc =
        .error "Description too long" → desc.length > 100) ∧
    (∀ ret s', addRecord pr dr s sender now owner dataCID keyCID rt rh desc =
        .ok (ret, s') →
      ret = s.recordCounter + 1 ∧ s'.recordCounter = s.recordCounter + 1 ∧
      s'.patientRecords owner = s.patientRecords owner ++ [s.recordCounter + 1] ∧
      s'.records (s.recordCounter + 1) =
        ⟨s.recordCounter + 1, owner, dataCID, keyCID, rt, rh, desc, sender, now, true⟩) := by
  refine ⟨?_, ?_, ?_, ?_, ?_, ?_, ?_⟩
  · intro h0
    unfold addRecord
    simp [h0]
  · constructor
    · intro h
      rcases hok : addRecord pr dr s sender now owner dataCID keyCID rt rh desc with e | v
      · rw [hok] at h
        simp [Except.isOk, Except.toBool] at h
      · obtain ⟨h1, h2, h3, h4, h5, -⟩ :=
          addRecord_ok pr dr s sender now owner dataCID keyCID rt rh desc v.1 v.2 (by rw [hok])
        exact ⟨h1, h2, h3, h4, h5⟩
    · intro ⟨h1, h2, h3, h4, h5⟩
      unfold addRecord
      simp [h1, h2, h3, Nat.not_lt.mpr h4, h5, Except.isOk, Except.toBool]
  · intro h
    unfold addRecord at h
    repeat' split at h
    all_goals simp_all
  · intro h
    unfold addRecord at h
    repeat' split at h
    all_goals simp_all
  · intro h
    unfold addRecord at h
    repeat' split at h
    all_goals simp_all
  · intro h
    unfold addRecord at h
    repeat' split at h
    all_goals simp_all
  · intro ret s' h
    obtain ⟨-, -, -, -, -, hret, hc, hrec, hpat⟩ :=
      addRecord_ok pr dr s sender now owner dataCID keyCID rt rh desc ret s' h
    refine ⟨hret, hc, ?_, ?_⟩
    · rw [hpat]
      simp
    · rw [hrec]
      simp

/-- Witness for C7: adding a record to the example registry succeeds with
identifier 1 and the expected stored record. -/
theorem addRecord_spec_witness :
    exRRadd = .ok (1, exRR) ∧
    exRR.records 1 =
      ⟨1, 1, "data-cid", "owner-key-cid", RecordType.LabResult, 7,
       "Annual blood work", 1, 40, true⟩ := by
  have h := (addRecord_spec exPR exDR initRecordRegistry 1 40 1 "data-cid"
    "owner-key-cid" RecordType.LabResult 7 "Annual blood work").2.2.2.2.2.2 1 exRR rfl
  exact ⟨rfl, h.2.2.2⟩

/-! ## Claim C8 -/

/-- C8: once created, no operation changes a record's fields except the
active flag: `addRecord` leaves every existing record untouched, and
`deactivateRecord` requires the caller to be the owner and the record still
active, changes nothing but the active flag of its target (true → false),
leaves every other record untouched, and no operation ever sets an inactive
record's flag back to true. -/
theorem record_fields_immutable
    (pr : PatientRegistryState) (dr : DoctorRegistryState)
    (s : RecordRegistryState) (sender now owner : Nat)
    (dataCID keyCID : String) (rt : RecordType) (rh : Nat) (desc : String) :
    (∀ ret s', addRecord pr dr s sender now owner dataCID keyCID rt rh desc =
        .ok (ret, s') →
      ∀ id, id ≤ s.recordCounter → s'.records id = s.records id) ∧
    (∀ rid s', deactivateRecord s sender rid = .ok s' →
      (s.records rid).owner = sender ∧ (s.records rid).isActive = true ∧
      s'.records rid = { s.records rid with isActive := false } ∧
      (∀ j, j ≠ rid → s'.records j = s.records j) ∧
      (∀ j, (s.records j).isActive = false → (s'.records j).isActive = false)) := by
  constructor
  · intro ret s' h id hle
    obtain ⟨-, -, -, -, -, -, -, hrec, -⟩ :=
      addRecord_ok pr dr s sender now owner dataCID keyCID rt rh desc ret s' h
    rw [hrec]
    exact mapSet_other _ _ _ _ (by omega)
  · intro rid s' h
    obtain ⟨h1, h2, hrec, -, -⟩ := deactivateRecord_ok s sender rid s' h
    refine ⟨h1, h2, ?_, ?_, ?_⟩
    · rw [hrec]
      simp
    · intro j hj
      rw [hrec]
      exact mapSet_other _ _ _ _ hj
    · intro j hj
      by_cases hjr : j = rid
      · subst hjr
        rw [hj] at h2
        cases h2
      · rw [hrec, mapSet_other _ _ _ _ hjr]
        exact hj

/-- Witness for C8 on the concrete trace: deactivating record 1 flips only
its active flag. -/
theorem record_fields_immutable_witness :
    (rrOrG exDeact).records 1 = { exRR.records 1 with isActive := false } := by
  have h := (record_fields_immutable exPR exDR exRR 1 50 1 "data-cid"
    "owner-key-cid" RecordType.General 0 "x").2 1 (rrOrG exDeact) rfl
  exact h.2.2.1

/-! ## Claim C9 -/

/-- C9: for a registered patient, `getActivePatientRecordIds` equals the
patient's full record-id index filtered by the active flag at read time,
preserving the index order; being a pure function of the contract state it
returns identical ordered results on repeated calls with no intervening
writes. -/
theorem getActivePatientRecordIds_spec
    (pr : PatientRegistryState) (s : RecordRegistryState) (patient : Nat)
    (hp : isPatient pr patient = true) :
    getActivePatientRecordIds pr s patient =
      .ok ((s.patientRecords patient).filter (fun id => (s.records id).isActive)) := by
  unfold getActivePatientRecordIds
  simp [hp, buildActive_eq_filter]

/-- Witness for C9 on the example registry with one active record. -/
theorem getActivePatientRecordIds_spec_witness :
    getActivePatientRecordIds exPR exRR 1 =
      .ok ((exRR.patientRecords 1).filter (fun id => (exRR.records id).isActive)) :=
  getActivePatientRecordIds_spec exPR exRR 1 (by decide)

/-! ## Claim C10 -/

/-- C10: when a doctor's `requestAccess` succeeds twice for the same record
(the second call permitted because the first grant is merely `Requested`),
the (record, doctor) pointer is overwritten to the second access id; the
patient may then successfully `grantAccess` the first, superseded id — its
status becomes `Granted` and the key digest is stored — yet
`hasActiveAccess` for the pair returns false and `getEncryptedKey` fails
with `NotGranted`, since both consult only the pointed-to newest grant,
which is still `Requested`. -/
theorem superseded_request_spec
    (dr : DoctorRegistryState) (rr : RecordRegistryState)
    (s0 s1 s2 s3 : AccessControlState)
    (doctor now1 now2 recordId : Nat) (reason1 reason2 : String)
    (a1 a2 patient t : Nat) (key : String) (n now3 : Nat)
    (h1 : requestAccess dr rr s0 doctor now1 recordId reason1 = .ok (a1, s1))
    (h2 : requestAccess dr rr s1 doctor now2 recordId reason2 = .ok (a2, s2))
    (h3 : grantAccess s2 patient t a1 key n = .ok s3) :
    (s1.accessGrants a1).status = .Requested ∧
    a2 ≠ a1 ∧
    s2.recordDoctorAccess recordId doctor = a2 ∧
    (s3.accessGrants a1).status = .Granted ∧
    (s3.accessGrants a1).encryptedKeyCID = key ∧
    (s3.accessGrants a2).status = .Requested ∧
    s3.recordDoctorAccess recordId doctor = a2 ∧
    hasActiveAccess s3 now3 recordId doctor = false ∧
    getEncryptedKey s3 doctor now3 recordId = .error "Access not granted" := by
  obtain ⟨-, -, -, -, -, -, ha1, hc1, hg1, hrda1, -⟩ :=
    requestAccess_ok dr rr s0 doctor now1 recordId reason1 a1 s1 h1
  obtain ⟨-, -, -, -, -, -, ha2, hc2, hg2, hrda2, -⟩ :=
    requestAccess_ok dr rr s1 doctor now2 recordId reason2 a2 s2 h2
  obtain ⟨-, -, -, -, -, -, -, hg3, hrda3, -⟩ :=
    grantAccess_ok s2 patient t a1 key n s3 h3
  have hne21 : a2 ≠ a1 := by omega
  have hne2 : a2 ≠ 0 := by omega
  have hreq1 : (s1.accessGrants a1).status = .Requested := by
    rw [hg1, ha1]
    simp
  have hptr2 : s2.recordDoctorAccess recordId doctor = a2 := by
    rw [hrda2, map2Set_same, ha2, hc1]
  have hst3 : (s3.accessGrants a2).status = .Requested := by
    rw [hg3, mapSet_other _ _ _ _ hne21, hg2, ha2]
    simp
  have hgr3 : (s3.accessGrants a1).status = .Granted ∧
      (s3.accessGrants a1).encryptedKeyCID = key := by
    rw [hg3]
    simp
  have hptr3 : s3.recordDoctorAccess recordId doctor = a2 := by
    rw [hrda3]
    exact hptr2
  refine ⟨hreq1, hne21, hptr2, hgr3.1, hgr3.2, hst3, hptr3, ?_, ?_⟩
  · unfold hasActiveAccess
    rw [hptr3]
    simp [hne2, hst3]
  · unfold getEncryptedKey
    rw [hptr3]
    simp [hne2, hst3]

/-- Witness for C10 on the concrete superseded-request trace. -/
theorem superseded_request_spec_witness :
    hasActiveAccess exAC_C 1000 1 2 = false ∧
    getEncryptedKey exAC_C 2 1000 1 = .error "Access not granted" := by
  have h := superseded_request_spec exDR exRR initAccessControl exAC_A exAC_B exAC_C
    2 100 110 1 "consult" "second consult" 1 2 1 1000 "wrapped-key-1" 30 1000
    rfl rfl rfl
  exact ⟨h.2.2.2.2.2.2.2.1, h.2.2.2.2.2.2.2.2⟩

end Decent
